import Mathlib

/-!
# Verification of the k8s-ecr-cred-helper credential-sync controller

Shallow embedding of `src/js/src/index.js` (an ECR Docker-registry
credential synchronizer for Kubernetes) together with proofs about its
behaviour.

Modelling conventions:
* JavaScript strings that carry binary-ish payloads (the registry hostname,
  the ECR authorization token, the produced base64 document) are modelled
  as `List Nat` of character codes / bytes; plain identifiers (namespace
  names, secret names, log messages) are Lean `String`s.
* Asynchronous code is modelled by explicit state passing: each function
  takes the responses of the external services it consults (cluster API,
  ECR provider) as arguments and returns the calls it issued plus its
  outcome.  A rejected promise is an `Except.error`.
* `JSON.stringify` with the document shapes the program builds, the
  `Buffer` base64 codec, and a JSON parser for the decode direction are
  implemented concretely below so that round-trip claims are real theorems.
-/

/-- Character codes of a string literal (all literals used are ASCII). -/
def strBytes (s : String) : List Nat :=
  s.data.map Char.toNat

/-- JSON values as built by the program: only objects and strings occur in
the docker-config document. -/
inductive Json where
  | str : List Nat → Json
  | obj : List (List Nat × Json) → Json

/-- Hex digit character code (lowercase, as emitted by `JSON.stringify`
for control-character escapes). -/
def hexDigit (n : Nat) : Nat :=
  if n < 10 then 48 + n else 97 + (n - 10)

/-- `JSON.stringify` escaping of one string character: quote, backslash and
the named control escapes, then `\u00xx` for other control characters,
everything else verbatim. -/
def escapeByte (b : Nat) : List Nat :=
  if b = 34 then [92, 34]
  else if b = 92 then [92, 92]
  else if b = 8 then [92, 98]
  else if b = 9 then [92, 116]
  else if b = 10 then [92, 110]
  else if b = 12 then [92, 102]
  else if b = 13 then [92, 114]
  else if b < 32 then [92, 117, 48, 48, hexDigit (b / 16), hexDigit (b % 16)]
  else [b]

/-- `JSON.stringify` escaping of a whole string body. -/
def escapeStr (s : List Nat) : List Nat :=
  (s.map escapeByte).flatten

/-- A rendered JSON string: body between double quotes (code 34). -/
def renderStr (s : List Nat) : List Nat :=
  34 :: escapeStr s ++ [34]

mutual

/-- Compact `JSON.stringify` rendering of a `Json` value. -/
def renderJson : Json → List Nat
  | .str s => renderStr s
  | .obj ms => 123 :: renderMembers ms ++ [125]

/-- Rendering of the members of a JSON object, comma separated. -/
def renderMembers : List (List Nat × Json) → List Nat
  | [] => []
  | [(k, v)] => renderStr k ++ 58 :: renderJson v
  | (k, v) :: rest => renderStr k ++ 58 :: renderJson v ++ 44 :: renderMembers rest

end

/-- Base64 alphabet: sextet value to character code. -/
def b64Char (v : Nat) : Nat :=
  if v < 26 then 65 + v
  else if v < 52 then 97 + (v - 26)
  else if v < 62 then 48 + (v - 52)
  else if v = 62 then 43
  else 47

/-- Base64 alphabet, decode direction: character code to sextet value. -/
def b64Val (c : Nat) : Option Nat :=
  if 65 ≤ c ∧ c ≤ 90 then some (c - 65)
  else if 97 ≤ c ∧ c ≤ 122 then some (c - 97 + 26)
  else if 48 ≤ c ∧ c ≤ 57 then some (c - 48 + 52)
  else if c = 43 then some 62
  else if c = 47 then some 63
  else none

/-- `Buffer.toString('base64')`: standard base64 with `=` padding (code 61),
three bytes per four characters. -/
def base64Encode : List Nat → List Nat
  | [] => []
  | [a] => [b64Char (a / 4), b64Char (a % 4 * 16), 61, 61]
  | [a, b] => [b64Char (a / 4), b64Char (a % 4 * 16 + b / 16), b64Char (b % 16 * 4), 61]
  | a :: b :: c :: rest =>
      b64Char (a / 4) :: b64Char (a % 4 * 16 + b / 16) ::
      b64Char (b % 16 * 4 + c / 64) :: b64Char (c % 64) :: base64Encode rest

/-- Base64 decoding (`Buffer.from(s, 'base64')`): inverse of
`base64Encode`, rejecting ill-formed input. -/
def base64Decode : List Nat → Option (List Nat)
  | [] => some []
  | c1 :: c2 :: c3 :: c4 :: rest =>
      (b64Val c1).bind fun s1 =>
      (b64Val c2).bind fun s2 =>
      if c3 = 61 then
        if c4 = 61 ∧ rest = [] ∧ s2 % 16 = 0 then some [s1 * 4 + s2 / 16] else none
      else
        (b64Val c3).bind fun s3 =>
        if c4 = 61 then
          if rest = [] ∧ s3 % 4 = 0 then some [s1 * 4 + s2 / 16, s2 % 16 * 16 + s3 / 4]
          else none
        else
          (b64Val c4).bind fun s4 =>
          (base64Decode rest).map fun t =>
            (s1 * 4 + s2 / 16) :: (s2 % 16 * 16 + s3 / 4) :: (s3 % 4 * 64 + s4) :: t
  | _ => none

/-- Hex digit code to value, decode direction (accepts both cases). -/
def hexVal (c : Nat) : Option Nat :=
  if 48 ≤ c ∧ c ≤ 57 then some (c - 48)
  else if 97 ≤ c ∧ c ≤ 102 then some (c - 97 + 10)
  else if 65 ≤ c ∧ c ≤ 70 then some (c - 65 + 10)
  else none

/-- Parse a JSON string body after the opening quote; returns the decoded
content and the input remaining after the closing quote. -/
def parseStrBody : List Nat → Option (List Nat × List Nat)
  | [] => none
  | c :: rest =>
    if c = 34 then some ([], rest)
    else if c = 92 then
      match rest with
      | [] => none
      | e :: rest2 =>
        if e = 34 then (parseStrBody rest2).map fun p => (34 :: p.1, p.2)
        else if e = 92 then (parseStrBody rest2).map fun p => (92 :: p.1, p.2)
        else if e = 47 then (parseStrBody rest2).map fun p => (47 :: p.1, p.2)
        else if e = 98 then (parseStrBody rest2).map fun p => (8 :: p.1, p.2)
        else if e = 102 then (parseStrBody rest2).map fun p => (12 :: p.1, p.2)
        else if e = 110 then (parseStrBody rest2).map fun p => (10 :: p.1, p.2)
        else if e = 114 then (parseStrBody rest2).map fun p => (13 :: p.1, p.2)
        else if e = 116 then (parseStrBody rest2).map fun p => (9 :: p.1, p.2)
        else if e = 117 then
          match rest2 with
          | h1 :: h2 :: h3 :: h4 :: rest3 =>
            match hexVal h1, hexVal h2, hexVal h3, hexVal h4 with
            | some d1, some d2, some d3, some d4 =>
              if ((d1 * 16 + d2) * 16 + d3) * 16 + d4 < 128 then
                (parseStrBody rest3).map fun p =>
                  ((((d1 * 16 + d2) * 16 + d3) * 16 + d4) :: p.1, p.2)
              else none
            | _, _, _, _ => none
          | _ => none
        else none
    else (parseStrBody rest).map fun p => (c :: p.1, p.2)

mutual

/-- Fuel-indexed parser for compact JSON values (strings and objects). -/
def parseJson : Nat → List Nat → Option (Json × List Nat)
  | 0, _ => none
  | _ + 1, [] => none
  | fuel + 1, c :: rest =>
    if c = 34 then (parseStrBody rest).map fun p => (Json.str p.1, p.2)
    else if c = 123 then
      match rest with
      | [] => none
      | d :: rest2 =>
        if d = 125 then some (Json.obj [], rest2)
        else (parseMembers fuel (d :: rest2)).map fun p => (Json.obj p.1, p.2)
    else none

/-- Fuel-indexed parser for a nonempty object member list, consuming the
closing brace. -/
def parseMembers : Nat → List Nat → Option (List (List Nat × Json) × List Nat)
  | 0, _ => none
  | _ + 1, [] => none
  | fuel + 1, c :: rest =>
    if c = 34 then
      match parseStrBody rest with
      | none => none
      | some (k, r2) =>
        match r2 with
        | [] => none
        | c2 :: r3 =>
          if c2 = 58 then
            match parseJson fuel r3 with
            | none => none
            | some (v, r4) =>
              match r4 with
              | [] => none
              | c3 :: r5 =>
                if c3 = 44 then (parseMembers fuel r5).map fun p => ((k, v) :: p.1, p.2)
                else if c3 = 125 then some ([(k, v)], r5)
                else none
          else none
    else none

end

/-- `JSON.parse` on a complete input: the whole input must be consumed.
The fuel `input.length + 5` dominates every possible parse, since the
parsers consume at least one input element per unit of fuel spent. -/
def jsonParse (input : List Nat) : Option Json :=
  match parseJson (input.length + 5) input with
  | some (j, []) => some j
  | _ => none

/-! ## Round-trip lemmas for the codec layer -/

theorem b64Val_b64Char (v : Nat) (hv : v < 64) : b64Val (b64Char v) = some v := by
  have h : ∀ w : Fin 64, b64Val (b64Char w.val) = some w.val := by decide
  exact h ⟨v, hv⟩

theorem b64Char_ne_pad (v : Nat) (hv : v < 64) : b64Char v ≠ 61 := by
  have h : ∀ w : Fin 64, b64Char w.val ≠ 61 := by decide
  exact h ⟨v, hv⟩

theorem base64_decode_encode (l : List Nat) (hl : ∀ b ∈ l, b < 256) :
    base64Decode (base64Encode l) = some l := by
  induction l using base64Encode.induct with
  | case1 => rfl
  | case2 a =>
    have ha : a < 256 := hl a (by simp)
    simp only [base64Encode, base64Decode]
    rw [b64Val_b64Char _ (by omega), b64Val_b64Char _ (by omega)]
    simp only [Option.some_bind, if_pos rfl]
    have hmod : a % 4 * 16 % 16 = 0 := by omega
    simp only [hmod, and_true, true_and, if_pos rfl, reduceIte]
    have : a / 4 * 4 + a % 4 * 16 / 16 = a := by omega
    rw [this]
  | case3 a b =>
    have ha : a < 256 := hl a (by simp)
    have hb : b < 256 := hl b (by simp)
    simp only [base64Encode, base64Decode]
    rw [b64Val_b64Char _ (by omega), b64Val_b64Char _ (by omega)]
    simp only [Option.some_bind]
    rw [if_neg (b64Char_ne_pad _ (by omega))]
    rw [b64Val_b64Char _ (by omega)]
    simp only [Option.some_bind, if_pos rfl]
    have hmod : b % 16 * 4 % 4 = 0 := by omega
    simp only [hmod, and_true, true_and, if_pos rfl, reduceIte]
    have h1 : a / 4 * 4 + (a % 4 * 16 + b / 16) / 16 = a := by omega
    have h2 : (a % 4 * 16 + b / 16) % 16 * 16 + b % 16 * 4 / 4 = b := by omega
    rw [h1, h2]
  | case4 a b c rest ih =>
    have ha : a < 256 := hl a (by simp)
    have hb : b < 256 := hl b (by simp)
    have hc : c < 256 := hl c (by simp)
    have hrest : ∀ x ∈ rest, x < 256 := fun x hx => hl x (by simp [hx])
    simp only [base64Encode, base64Decode]
    rw [b64Val_b64Char _ (by omega), b64Val_b64Char _ (by omega)]
    simp only [Option.some_bind]
    rw [if_neg (b64Char_ne_pad _ (by omega))]
    rw [b64Val_b64Char _ (by omega)]
    simp only [Option.some_bind]
    rw [if_neg (b64Char_ne_pad _ (by omega))]
    rw [b64Val_b64Char _ (by omega)]
    simp only [Option.some_bind]
    rw [ih hrest]
    simp only [Option.map_some']
    have h1 : a / 4 * 4 + (a % 4 * 16 + b / 16) / 16 = a := by omega
    have h2 : (a % 4 * 16 + b / 16) % 16 * 16 + (b % 16 * 4 + c / 64) / 4 = b := by omega
    have h3 : (b % 16 * 4 + c / 64) % 4 * 64 + c % 64 = c := by omega
    rw [h1, h2, h3]

theorem hexVal_hexDigit (d : Nat) (hd : d < 16) : hexVal (hexDigit d) = some d := by
  have h : ∀ w : Fin 16, hexVal (hexDigit w.val) = some w.val := by decide
  exact h ⟨d, hd⟩

theorem parseStrBody_escape (s rest : List Nat) :
    parseStrBody (escapeStr s ++ 34 :: rest) = some (s, rest) := by
  induction s with
  | nil => simp [escapeStr, parseStrBody.eq_def]
  | cons b tl ih =>
    have hesc : escapeStr (b :: tl) = escapeByte b ++ escapeStr tl := by
      simp [escapeStr]
    rw [hesc, List.append_assoc]
    by_cases h34 : b = 34
    · subst h34
      norm_num [escapeByte]
      rw [parseStrBody.eq_def]
      norm_num [ih]
    · by_cases h92 : b = 92
      · subst h92
        norm_num [escapeByte]
        rw [parseStrBody.eq_def]
        norm_num [ih]
      · by_cases h8 : b = 8
        · subst h8
          norm_num [escapeByte]
          rw [parseStrBody.eq_def]
          norm_num [ih]
        · by_cases h9 : b = 9
          · subst h9
            norm_num [escapeByte]
            rw [parseStrBody.eq_def]
            norm_num [ih]
          · by_cases h10 : b = 10
            · subst h10
              norm_num [escapeByte]
              rw [parseStrBody.eq_def]
              norm_num [ih]
            · by_cases h12 : b = 12
              · subst h12
                norm_num [escapeByte]
                rw [parseStrBody.eq_def]
                norm_num [ih]
              · by_cases h13 : b = 13
                · subst h13
                  norm_num [escapeByte]
                  rw [parseStrBody.eq_def]
                  norm_num [ih]
                · by_cases hctl : b < 32
                  · simp only [escapeByte, if_neg h34, if_neg h92, if_neg h8, if_neg h9,
                      if_neg h10, if_neg h12, if_neg h13, if_pos hctl]
                    simp only [List.cons_append, List.nil_append]
                    rw [parseStrBody.eq_def]
                    norm_num
                    rw [hexVal_hexDigit _ (by omega), hexVal_hexDigit _ (by omega)]
                    have h48 : hexVal 48 = some 0 := by norm_num [hexVal]
                    rw [h48]
                    dsimp only
                    rw [if_pos (by omega : ((0 * 16 + 0) * 16 + b / 16) * 16 + b % 16 < 128)]
                    rw [ih]
                    simp only [Option.map_some', Option.some.injEq, Prod.mk.injEq,
                      List.cons.injEq]
                    refine ⟨⟨by omega, ?_⟩, ?_⟩ <;> trivial
                  · have hlit : escapeByte b = [b] := by
                      simp only [escapeByte, if_neg h34, if_neg h92, if_neg h8, if_neg h9,
                        if_neg h10, if_neg h12, if_neg h13, if_neg hctl]
                    rw [hlit]
                    simp only [List.cons_append, List.nil_append]
                    rw [parseStrBody.eq_def]
                    simp only [if_neg h34, if_neg h92, ih, Option.map_some']

theorem renderStr_cons (s rest : List Nat) :
    renderStr s ++ rest = 34 :: (escapeStr s ++ 34 :: rest) := by
  simp [renderStr]

theorem parseJson_render_str (fuel : Nat) (s rest : List Nat) :
    parseJson (fuel + 1) (renderJson (.str s) ++ rest) = some (.str s, rest) := by
  have h : renderJson (.str s) = renderStr s := by simp [renderJson]
  rw [h, renderStr_cons, parseJson.eq_def]
  norm_num [parseStrBody_escape]

theorem parseJson_render_objNil (fuel : Nat) (rest : List Nat) :
    parseJson (fuel + 1) (renderJson (.obj []) ++ rest) = some (.obj [], rest) := by
  have h : renderJson (.obj []) = [123, 125] := by simp [renderJson, renderMembers]
  rw [h, parseJson.eq_def]
  norm_num

theorem parseMembers_render_single (fuel : Nat) (k : List Nat) (v : Json) (rest : List Nat)
    (hv : ∀ r, parseJson fuel (renderJson v ++ r) = some (v, r)) :
    parseMembers (fuel + 1) (renderMembers [(k, v)] ++ 125 :: rest) = some ([(k, v)], rest) := by
  have h : renderMembers [(k, v)] ++ 125 :: rest =
      34 :: (escapeStr k ++ 34 :: (58 :: (renderJson v ++ 125 :: rest))) := by
    simp [renderMembers, renderStr]
  rw [h, parseMembers.eq_def]
  norm_num [parseStrBody_escape, hv]

theorem parseMembers_render_two (fuel : Nat) (k1 k2 : List Nat) (v1 v2 : Json)
    (rest : List Nat)
    (h1 : ∀ r, parseJson (fuel + 1) (renderJson v1 ++ r) = some (v1, r))
    (h2 : ∀ r, parseJson fuel (renderJson v2 ++ r) = some (v2, r)) :
    parseMembers (fuel + 2) (renderMembers [(k1, v1), (k2, v2)] ++ 125 :: rest) =
      some ([(k1, v1), (k2, v2)], rest) := by
  have h : renderMembers [(k1, v1), (k2, v2)] ++ 125 :: rest =
      34 :: (escapeStr k1 ++ 34 :: (58 :: (renderJson v1 ++
        44 :: (renderMembers [(k2, v2)] ++ 125 :: rest)))) := by
    simp [renderMembers, renderStr]
  rw [h, parseMembers.eq_def]
  norm_num [parseStrBody_escape, h1, parseMembers_render_single fuel k2 v2 rest h2]

theorem parseJson_render_obj1 (fuel : Nat) (k : List Nat) (v : Json) (rest : List Nat)
    (hv : ∀ r, parseJson fuel (renderJson v ++ r) = some (v, r)) :
    parseJson (fuel + 2) (renderJson (.obj [(k, v)]) ++ rest) = some (.obj [(k, v)], rest) := by
  have h : renderJson (.obj [(k, v)]) ++ rest =
      123 :: (renderMembers [(k, v)] ++ 125 :: rest) := by
    simp [renderJson]
  rw [h, parseJson.eq_def]
  have hne : renderMembers [(k, v)] ++ 125 :: rest =
      34 :: (escapeStr k ++ 34 :: (58 :: (renderJson v ++ 125 :: rest))) := by
    simp [renderMembers, renderStr]
  rw [hne]
  norm_num
  rw [← hne, parseMembers_render_single fuel k v rest hv]

theorem parseJson_render_obj2 (fuel : Nat) (k1 k2 : List Nat) (v1 v2 : Json)
    (rest : List Nat)
    (h1 : ∀ r, parseJson (fuel + 1) (renderJson v1 ++ r) = some (v1, r))
    (h2 : ∀ r, parseJson fuel (renderJson v2 ++ r) = some (v2, r)) :
    parseJson (fuel + 3) (renderJson (.obj [(k1, v1), (k2, v2)]) ++ rest) =
      some (.obj [(k1, v1), (k2, v2)], rest) := by
  have h : renderJson (.obj [(k1, v1), (k2, v2)]) ++ rest =
      123 :: (renderMembers [(k1, v1), (k2, v2)] ++ 125 :: rest) := by
    simp [renderJson]
  rw [h, parseJson.eq_def]
  have hne : renderMembers [(k1, v1), (k2, v2)] ++ 125 :: rest =
      34 :: (escapeStr k1 ++ 34 :: (58 :: (renderJson v1 ++
        44 :: (renderMembers [(k2, v2)] ++ 125 :: rest)))) := by
    simp [renderMembers, renderStr]
  rw [hne]
  norm_num
  rw [← hne, parseMembers_render_two fuel k1 k2 v1 v2 rest h1 h2]

theorem hexDigit_lt (d : Nat) (hd : d < 16) : hexDigit d < 256 := by
  unfold hexDigit; split <;> omega

theorem escapeByte_lt (b : Nat) (hb : b < 256) : ∀ x ∈ escapeByte b, x < 256 := by
  intro x hx
  unfold escapeByte at hx
  split_ifs at hx with h1 h2 h3 h4 h5 h6 h7 h8 <;>
    simp only [List.mem_cons, List.not_mem_nil, or_false] at hx
  · rcases hx with rfl | rfl <;> omega
  · rcases hx with rfl | rfl <;> omega
  · rcases hx with rfl | rfl <;> omega
  · rcases hx with rfl | rfl <;> omega
  · rcases hx with rfl | rfl <;> omega
  · rcases hx with rfl | rfl <;> omega
  · rcases hx with rfl | rfl <;> omega
  · rcases hx with rfl | rfl | rfl | rfl | rfl | rfl
    · omega
    · omega
    · omega
    · omega
    · exact hexDigit_lt _ (by omega)
    · exact hexDigit_lt _ (by omega)
  · subst hx; omega

theorem escapeStr_lt (s : List Nat) (hs : ∀ a ∈ s, a < 256) : ∀ x ∈ escapeStr s, x < 256 := by
  intro x hx
  simp only [escapeStr, List.mem_flatten, List.mem_map] at hx
  obtain ⟨l, ⟨a, ha, rfl⟩, hxl⟩ := hx
  exact escapeByte_lt a (hs a ha) x hxl

/-! ## Embedding of the controller code (src/js/src/index.js) -/

/-- The environment-derived configuration read at process start:
`DOCKER_REGISTRY`, `ECR_SECRET_NAME`, `ECR_LABEL_NAME`, `ECR_LABEL_VALUE`
and `ECR_CRON_SCHEDULE`. -/
structure Config where
  registry : List Nat
  secretName : String
  labelName : String
  labelValue : String
  cronSchedule : String

/-- The label selector string computed once at startup:
`ECR_LABEL_NAME=ECR_LABEL_VALUE`. -/
def labelSelector (cfg : Config) : String :=
  cfg.labelName ++ "=" ++ cfg.labelValue

/-- Errors observable in the program.  `httpError` models the `Error` built
from a `checkStatus` message template that successfully interpolated the
response status; `referenceError` models a JavaScript `ReferenceError`
raised when a message template dereferences an identifier that is not in
scope; `providerError` models a rejected ECR client promise. -/
inductive JsError where
  | httpError (context : String) (nsName : String) (statusCode : Nat) (statusMessage : String)
  | referenceError (name : String)
  | providerError (message : String)

/-- Whether an error is an HTTP status error carrying the response's status
code and message. -/
def JsError.isHttpError : JsError → Bool
  | .httpError _ _ _ _ => true
  | _ => false

/-- `checkStatus` succeeds exactly on 2xx status codes
(`statusCode < 200 || statusCode >= 300` throws). -/
def is2xx (code : Nat) : Bool :=
  decide (200 ≤ code ∧ code < 300)

/-- One entry of the ECR `GetAuthorizationToken` response's
`authorizationData` array; the token field may be absent. -/
structure EcrAuthData where
  authorizationToken : Option (List Nat)

/-- The ECR `GetAuthorizationToken` response; `authorizationData` itself
may be absent. -/
structure EcrResponse where
  authorizationData : Option (List EcrAuthData)

/-- The token extraction in `fetchDockerCredentials`:
`response.authorizationData && response.authorizationData.length ?
response.authorizationData[0].authorizationToken : null`. -/
def ecrTokenOf (r : EcrResponse) : Option (List Nat) :=
  match r.authorizationData with
  | some (d :: _) => d.authorizationToken
  | _ => none

/-- The docker-config document built by `fetchDockerCredentials`: an
`auths` map that holds one `username`/`password` entry under the registry
hostname when the extracted token is truthy (JavaScript: neither absent
nor the empty string), and is empty otherwise. -/
def dockerConfigJson (registry : List Nat) (token : Option (List Nat)) : Json :=
  Json.obj [(strBytes "auths",
    match token with
    | some t =>
        if t.isEmpty then Json.obj []
        else Json.obj [(registry, Json.obj
          [(strBytes "username", Json.str (strBytes "AWS")),
           (strBytes "password", Json.str t)])]
    | none => Json.obj [])]

/-- `fetchDockerCredentials`: calls the ECR provider; a rejected provider
promise propagates; otherwise the docker-config document is serialized
with `JSON.stringify` and base64 encoded.  There is no failure path for a
response without authorization data: it yields the empty document. -/
def fetchDockerCredentials (registry : List Nat) (resp : Except JsError EcrResponse) :
    Except JsError (List Nat) :=
  match resp with
  | .error e => .error e
  | .ok r => .ok (base64Encode (renderJson (dockerConfigJson registry (ecrTokenOf r))))

/-- Decoding pipeline for a produced document: base64 decode, then JSON
parse. -/
def decodeCredentials (doc : List Nat) : Option Json :=
  (base64Decode doc).bind jsonParse

/-- The module-level `cachedToken` variable: a token value with the
`Date` (milliseconds) at which it was stored. -/
structure CacheEntry where
  token : List Nat
  date : Nat

/-- The freshness window compared against `differenceInMinutes`. -/
def freshnessWindowMinutes : Nat := 360

/-- Result of one `getDockerCredentials` call: the settled promise value,
the `cachedToken` variable afterwards, and whether the ECR provider was
contacted. -/
structure GdcResult where
  result : Except JsError (List Nat)
  cache : Option CacheEntry
  providerCalled : Bool

/-- The fetch path of `getDockerCredentials`: contact the provider; on
success overwrite `cachedToken` with the new token and the current time;
on failure leave `cachedToken` untouched and propagate the rejection.
`fetch` is the outcome of `fetchDockerCredentials` at this moment. -/
def gdcFetch (now : Nat) (cache : Option CacheEntry) (fetch : Except JsError (List Nat)) :
    GdcResult :=
  match fetch with
  | .ok t => ⟨.ok t, some ⟨t, now⟩, true⟩
  | .error e => ⟨.error e, cache, true⟩

/-- `getDockerCredentials(useCache)`: when `useCache` is truthy and
`cachedToken` is set and `differenceInMinutes(now, cachedToken.date)` is
below 360, resolve with the cached token without contacting the provider;
otherwise take the fetch path.  Times are in milliseconds, so the age in
whole minutes is `(now - date) / 60000`. -/
def getDockerCredentials (useCache : Bool) (now : Nat) (cache : Option CacheEntry)
    (fetch : Except JsError (List Nat)) : GdcResult :=
  match useCache, cache with
  | true, some c =>
      if (now - c.date) / 60000 < freshnessWindowMinutes then ⟨.ok c.token, some c, false⟩
      else gdcFetch now (some c) fetch
  | _, _ => gdcFetch now cache fetch

/-- Secret metadata as inspected by `secretExists`
(`config.metadata.name`). -/
structure SecretMeta where
  name : String

/-- One item of a `listNamespacedSecret` response body; `metadata` may be
absent (the code guards with `!!config.metadata`). -/
structure SecretItem where
  metadata : Option SecretMeta

/-- A `listNamespacedSecret` response: HTTP status line plus body items. -/
structure SecretListResponse where
  statusCode : Nat
  statusMessage : String
  items : List SecretItem

/-- The name scan inside `secretExists`:
`response.body.items.some(config => !!config.metadata &&
config.metadata.name === secretName)`. -/
def secretNameMatch (cfg : Config) (resp : SecretListResponse) : Bool :=
  resp.items.any fun item =>
    match item.metadata with
    | some m => m.name == cfg.secretName
    | none => false

/-- `secretExists(namespace)` applied to the listing response.  On a
non-2xx status `checkStatus` evaluates the message supplier, whose
template dereferences `secretsResponse.response.statusMessage`; the
identifier `secretsResponse` is not in scope (every other call site uses
`response`), so evaluating the template throws a `ReferenceError` instead
of producing the intended status message. -/
def secretExists (cfg : Config) (ns : String) (resp : SecretListResponse) :
    Except JsError Bool :=
  if is2xx resp.statusCode then .ok (secretNameMatch cfg resp)
  else .error (.referenceError "secretsResponse")

/-- One JSON-patch operation as built by `updateSecret`. -/
structure PatchOp where
  op : String
  path : String
  value : List Nat

/-- The full secret object built by `createSecret`. -/
structure SecretSpec where
  apiVersion : String
  kind : String
  type : String
  name : String
  nsName : String
  dockerconfigjson : List Nat

/-- A write call issued against the cluster API. -/
inductive WriteCall where
  | patchSecret (name : String) (nsName : String) (patch : List PatchOp)
  | createSecret (nsName : String) (secret : SecretSpec)

/-- The JSON-patch issued by `updateSecret`: a single `replace` of
`/data/.dockerconfigjson`. -/
def updateSecretCall (cfg : Config) (ns : String) (token : List Nat) : WriteCall :=
  .patchSecret cfg.secretName ns [⟨"replace", "/data/.dockerconfigjson", token⟩]

/-- The create issued by `createSecret`: the fixed schema with
`apiVersion: v1`, `kind: Secret`, `type: kubernetes.io/dockerconfigjson`,
the configured name, the target namespace and the credentials field. -/
def createSecretCall (cfg : Config) (ns : String) (token : List Nat) : WriteCall :=
  .createSecret ns ⟨"v1", "Secret", "kubernetes.io/dockerconfigjson",
    cfg.secretName, ns, token⟩

/-- `checkStatus` outcome of the write call issued for a namespace:
`none` on 2xx, otherwise the `Error` whose message interpolates the
response's status code and message (these templates only reference
`response`, so they evaluate normally). -/
def writeStatusError (ex : Bool) (ns : String) (code : Nat) (msg : String) :
    Option JsError :=
  if is2xx code then none
  else some (.httpError (if ex then "update secret" else "create secret") ns code msg)

/-- `updateNamespaceCredentials(namespace, token)`: run `secretExists` on
the listing response, then issue exactly one write — a patch when the
secret exists, a create when it does not — and `.catch` any error of the
chain into a log entry.  Returns the list of issued write calls and the
logged error, if any.  `writeResp` is the status line the cluster API
returns for the issued write. -/
def updateNamespaceCredentials (cfg : Config) (ns : String) (token : List Nat)
    (listResp : SecretListResponse) (writeResp : Nat × String) :
    List WriteCall × Option JsError :=
  match secretExists cfg ns listResp with
  | .error e => ([], some e)
  | .ok ex =>
      ((if ex then [updateSecretCall cfg ns token] else [createSecretCall cfg ns token]),
        writeStatusError ex ns writeResp.1 writeResp.2)

/-- Result of one `updateCredentials` sweep: whether the ECR provider was
contacted, the `cachedToken` variable afterwards, the per-namespace
reconciliation outcomes, and the error logged by the sweep-level `.catch`
(which only sees listing and token-fetch failures). -/
structure SweepResult where
  providerCalled : Bool
  cache : Option CacheEntry
  perNamespace : List (String × (List WriteCall × Option JsError))
  sweepError : Option JsError

/-- `updateCredentials()`: list the labeled namespaces, then call
`getDockerCredentials()` — with no argument, so `useCache` is undefined
(falsy) and the provider is always contacted — then fan out
`updateNamespaceCredentials` over every listed namespace.  A listing or
fetch failure is caught by the sweep-level `.catch`; per-namespace
failures are not, since each namespace chain carries its own `.catch`.
`listO` and `writeO` give each namespace's listing and write responses. -/
def updateCredentials (cfg : Config) (nsResp : Except JsError (List String))
    (now : Nat) (cache : Option CacheEntry) (fetch : Except JsError (List Nat))
    (listO : String → SecretListResponse) (writeO : String → Nat × String) :
    SweepResult :=
  match nsResp with
  | .error e => ⟨false, cache, [], some e⟩
  | .ok namespaces =>
      match getDockerCredentials false now cache fetch with
      | ⟨.error e, cache2, called⟩ => ⟨called, cache2, [], some e⟩
      | ⟨.ok token, cache2, called⟩ =>
          ⟨called, cache2,
            namespaces.map fun ns =>
              (ns, updateNamespaceCredentials cfg ns token (listO ns) (writeO ns)),
            none⟩

/-- A watch call established by `watchNamespaces`: `new k8s.Watch(...)`
followed by `watch.watch('/api/v1/namespaces', { labelSelector }, ...)`. -/
structure WatchCall where
  path : String
  selector : String

/-- `watchNamespaces()`: the watch call it establishes. -/
def watchNamespaces (cfg : Config) : WatchCall :=
  ⟨"/api/v1/namespaces", labelSelector cfg⟩

/-- Observable actions of the watch-completion callback. -/
inductive WatchAction where
  | logErrorA (message : String) (error : JsError)
  | logInfoA (message : String)
  | startWatch (call : WatchCall)

/-- `onNamespaceWatchComplete(error)`: log the stream outcome (error or
clean end), then unconditionally call `watchNamespaces()` again before
returning. -/
def onNamespaceWatchComplete (cfg : Config) (error : Option JsError) :
    List WatchAction :=
  (match error with
   | some e => [WatchAction.logErrorA "Namespace watch failed" e]
   | none => [WatchAction.logInfoA "Namespace watch ended"]) ++
  [WatchAction.startWatch (watchNamespaces cfg)]

/-- The job a cron registration will run on every tick. -/
inductive CronJob where
  | sweep

/-- Top-level actions of the process entry point. -/
inductive TopAction where
  | startWatch (call : WatchCall)
  | registerCron (expr : String) (job : CronJob)
  | runSweep

/-- `scheduleUpdates()`: `cron.schedule(cronSchedule, updateCredentials)`
registers the sweep on the cron expression; `node-cron` does not run the
callback at registration time, so no `runSweep` action is produced. -/
def scheduleUpdates (cfg : Config) : List TopAction :=
  [TopAction.registerCron cfg.cronSchedule CronJob.sweep]

/-- The module's top level: `watchNamespaces(); scheduleUpdates();`. -/
def startupActions (cfg : Config) : List TopAction :=
  TopAction.startWatch (watchNamespaces cfg) :: scheduleUpdates cfg

/-- A firing of the recurring schedule runs the registered job, i.e. the
`updateCredentials` sweep. -/
def cronFire (job : CronJob) (cfg : Config) (nsResp : Except JsError (List String))
    (now : Nat) (cache : Option CacheEntry) (fetch : Except JsError (List Nat))
    (listO : String → SecretListResponse) (writeO : String → Nat × String) :
    SweepResult :=
  match job with
  | .sweep => updateCredentials cfg nsResp now cache fetch listO writeO

/-! ## Behavioural lemmas about the token cache -/

theorem gdc_cacheHit (now : Nat) (c : CacheEntry) (f : Except JsError (List Nat))
    (hfresh : (now - c.date) / 60000 < freshnessWindowMinutes) :
    getDockerCredentials true now (some c) f = ⟨.ok c.token, some c, false⟩ := by
  simp [getDockerCredentials, hfresh]

theorem gdc_stale (now : Nat) (c : CacheEntry) (f : Except JsError (List Nat))
    (hstale : ¬((now - c.date) / 60000 < freshnessWindowMinutes)) :
    getDockerCredentials true now (some c) f = gdcFetch now (some c) f := by
  simp [getDockerCredentials, hstale]

/-! ## Claims -/

/-- A concrete configuration used for concrete evaluations: the default
environment of the image (`ECR_SECRET_NAME=ecr-creds`,
`ECR_LABEL_NAME=credentialType`, `ECR_LABEL_VALUE=ecr`,
`ECR_CRON_SCHEDULE=0 */6 * * *`). -/
def cfg0 : Config :=
  ⟨strBytes "000000.dkr.ecr.us-east-1.amazonaws.com", "ecr-creds",
    "credentialType", "ecr", "0 */6 * * *"⟩

/-- C1 (counterexample): the process top level is
`watchNamespaces(); scheduleUpdates();` and `scheduleUpdates` only
registers the cron job; no reconciliation sweep is triggered at process
startup, contrary to the claim that a full sweep runs once at startup. -/
theorem C1_counterexample :
    TopAction.runSweep ∉ startupActions cfg0 ∧
    startupActions cfg0 =
      [TopAction.startWatch ⟨"/api/v1/namespaces", "credentialType=ecr"⟩,
       TopAction.registerCron "0 */6 * * *" CronJob.sweep] := by
  constructor
  · intro hmem
    simp [startupActions, scheduleUpdates, watchNamespaces, labelSelector, cfg0] at hmem
  · rfl

/-- C1 (amended): the scheduler triggers a full reconciliation sweep only
at each firing of the recurring schedule — the registered cron job runs
`updateCredentials`, which contacts the provider and reconciles every
listed namespace — while at process startup no sweep is triggered (only
the watch is started and the cron job registered). -/
theorem C1_amended (cfg : Config) (l : List String) (tok : List Nat)
    (nsResp : Except JsError (List String)) (now : Nat) (cache : Option CacheEntry)
    (fetch : Except JsError (List Nat)) (listO : String → SecretListResponse)
    (writeO : String → Nat × String)
    (hns : nsResp = .ok l) (hf : fetch = .ok tok) :
    TopAction.runSweep ∉ startupActions cfg ∧
    scheduleUpdates cfg = [TopAction.registerCron cfg.cronSchedule CronJob.sweep] ∧
    (cronFire CronJob.sweep cfg nsResp now cache fetch listO writeO).providerCalled = true ∧
    (cronFire CronJob.sweep cfg nsResp now cache fetch listO writeO).perNamespace =
      l.map fun ns => (ns, updateNamespaceCredentials cfg ns tok (listO ns) (writeO ns)) := by
  subst hns hf
  refine ⟨?_, rfl, ?_, ?_⟩
  · intro hmem
    simp [startupActions, scheduleUpdates] at hmem
  · cases cache <;> simp [cronFire, updateCredentials, getDockerCredentials, gdcFetch]
  · cases cache <;> simp [cronFire, updateCredentials, getDockerCredentials, gdcFetch]

/-- Witness for C1 (amended) at a concrete configuration and sweep. -/
theorem C1_amended_witness :
    TopAction.runSweep ∉ startupActions cfg0 ∧
    scheduleUpdates cfg0 = [TopAction.registerCron cfg0.cronSchedule CronJob.sweep] ∧
    (cronFire CronJob.sweep cfg0 (.ok ["team-a"]) 0 none (.ok [1])
      (fun _ => ⟨200, "OK", []⟩) (fun _ => (200, "OK"))).providerCalled = true ∧
    (cronFire CronJob.sweep cfg0 (.ok ["team-a"]) 0 none (.ok [1])
      (fun _ => ⟨200, "OK", []⟩) (fun _ => (200, "OK"))).perNamespace =
      ["team-a"].map fun ns =>
        (ns, updateNamespaceCredentials cfg0 ns [1] ⟨200, "OK", []⟩ (200, "OK")) :=
  C1_amended cfg0 ["team-a"] [1] (.ok ["team-a"]) 0 none (.ok [1])
    (fun _ => ⟨200, "OK", []⟩) (fun _ => (200, "OK")) rfl rfl

/-- C2: every invocation of the watch-completion callback — whether the
stream ended with an error or cleanly — re-establishes the namespace
watch against the cluster API as its final action before returning, and
it does so exactly once per invocation, unconditionally for every error
value (so there is no limit on restart attempts). -/
theorem C2_watch_restart (cfg : Config) (error : Option JsError) :
    (onNamespaceWatchComplete cfg error).getLast? =
      some (WatchAction.startWatch (watchNamespaces cfg)) ∧
    (onNamespaceWatchComplete cfg error).countP
      (fun a => match a with | WatchAction.startWatch _ => true | _ => false) = 1 := by
  cases error <;> exact ⟨rfl, rfl⟩

/-- C3: with two `getToken(true)` calls and no intervening call, if the
second call finds the cached token younger than the 360-minute window it
performs no provider call (so at most one provider call happens across
the two calls) and resolves with the cached token; if the cached token's
age has reached the window, the second call performs a provider call,
its outcome is exactly the fresh fetch outcome (never the stale cached
value), and on success the cache holds the newly fetched token. -/
theorem C3_cache_freshness (st0 : Option CacheEntry) (t1 t2 : Nat)
    (f1 f2 : Except JsError (List Nat)) :
    (∀ c, (getDockerCredentials true t1 st0 f1).cache = some c →
      (t2 - c.date) / 60000 < freshnessWindowMinutes →
      (getDockerCredentials true t2 (getDockerCredentials true t1 st0 f1).cache f2).providerCalled
          = false ∧
      (getDockerCredentials true t2 (getDockerCredentials true t1 st0 f1).cache f2).result
          = .ok c.token ∧
      (getDockerCredentials true t1 st0 f1).providerCalled.toNat +
        (getDockerCredentials true t2 (getDockerCredentials true t1 st0 f1).cache
          f2).providerCalled.toNat ≤ 1) ∧
    (∀ c, (getDockerCredentials true t1 st0 f1).cache = some c →
      freshnessWindowMinutes ≤ (t2 - c.date) / 60000 →
      (getDockerCredentials true t2 (getDockerCredentials true t1 st0 f1).cache f2).providerCalled
          = true ∧
      (getDockerCredentials true t2 (getDockerCredentials true t1 st0 f1).cache f2).result
          = f2 ∧
      ∀ t, f2 = .ok t →
        (getDockerCredentials true t2 (getDockerCredentials true t1 st0 f1).cache f2).cache
          = some ⟨t, t2⟩) := by
  constructor
  · intro c hc hfresh
    rw [hc, gdc_cacheHit t2 c f2 hfresh]
    refine ⟨rfl, rfl, ?_⟩
    cases (getDockerCredentials true t1 st0 f1).providerCalled <;> simp
  · intro c hc hstale
    rw [hc, gdc_stale t2 c f2 (by omega)]
    cases f2 with
    | ok t =>
        refine ⟨rfl, rfl, ?_⟩
        intro t' ht'
        cases ht'
        rfl
    | error e =>
        refine ⟨rfl, rfl, ?_⟩
        intro t' ht'
        cases ht'

/-- Witness for C3 at concrete calls: a fresh second call one minute
after a fetching first call, and a stale second call 400 minutes after. -/
theorem C3_witness :
    ((getDockerCredentials true 60000 (getDockerCredentials true 0 none
        (Except.ok [1, 2])).cache (Except.ok [9])).providerCalled = false ∧
      (getDockerCredentials true 60000 (getDockerCredentials true 0 none
        (Except.ok [1, 2])).cache (Except.ok [9])).result = .ok (CacheEntry.mk [1, 2] 0).token ∧
      (getDockerCredentials true 0 none (Except.ok [1, 2])).providerCalled.toNat +
        (getDockerCredentials true 60000 (getDockerCredentials true 0 none
          (Except.ok [1, 2])).cache (Except.ok [9])).providerCalled.toNat ≤ 1) ∧
    ((getDockerCredentials true 24000000 (getDockerCredentials true 0 none
        (Except.ok [1, 2])).cache (Except.ok [9])).providerCalled = true ∧
      (getDockerCredentials true 24000000 (getDockerCredentials true 0 none
        (Except.ok [1, 2])).cache (Except.ok [9])).result = Except.ok [9] ∧
      ∀ t, (Except.ok [9] : Except JsError (List Nat)) = Except.ok t →
        (getDockerCredentials true 24000000 (getDockerCredentials true 0 none
          (Except.ok [1, 2])).cache (Except.ok [9])).cache = some ⟨t, 24000000⟩) :=
  ⟨(C3_cache_freshness none 0 60000 (Except.ok [1, 2]) (Except.ok [9])).1
      ⟨[1, 2], 0⟩ rfl (by norm_num [freshnessWindowMinutes]),
    (C3_cache_freshness none 0 24000000 (Except.ok [1, 2]) (Except.ok [9])).2
      ⟨[1, 2], 0⟩ rfl (by norm_num [freshnessWindowMinutes])⟩

/-- C4: whenever the secret listing succeeds (2xx), `reconcile` issues
exactly one cluster-API write: a JSON-patch replacing only
`/data/.dockerconfigjson` when a secret with the configured name exists
in the namespace, and otherwise a full create with the fixed schema
(`apiVersion: v1`, `kind: Secret`, `type: kubernetes.io/dockerconfigjson`,
the configured name, the namespace, the credentials field) — never both. -/
theorem C4_exactly_one_write (cfg : Config) (ns : String) (token : List Nat)
    (resp : SecretListResponse) (wr : Nat × String)
    (h : is2xx resp.statusCode = true) :
    (updateNamespaceCredentials cfg ns token resp wr).1 =
      (if secretNameMatch cfg resp then
        [WriteCall.patchSecret cfg.secretName ns
          [⟨"replace", "/data/.dockerconfigjson", token⟩]]
      else
        [WriteCall.createSecret ns ⟨"v1", "Secret", "kubernetes.io/dockerconfigjson",
          cfg.secretName, ns, token⟩]) ∧
    (updateNamespaceCredentials cfg ns token resp wr).1.length = 1 := by
  unfold updateNamespaceCredentials secretExists
  rw [h]
  constructor
  · simp [updateSecretCall, createSecretCall]
  · cases hsm : secretNameMatch cfg resp <;> simp [hsm]

/-- Witness for C4: a listing containing the configured secret yields the
patch; one not containing it yields the create. -/
theorem C4_witness :
    is2xx 200 = true ∧
    ((updateNamespaceCredentials cfg0 "team-a" [7]
        ⟨200, "OK", [⟨some ⟨"ecr-creds"⟩⟩]⟩ (200, "OK")).1 =
      (if secretNameMatch cfg0 ⟨200, "OK", [⟨some ⟨"ecr-creds"⟩⟩]⟩ then
        [WriteCall.patchSecret cfg0.secretName "team-a"
          [⟨"replace", "/data/.dockerconfigjson", [7]⟩]]
      else
        [WriteCall.createSecret "team-a" ⟨"v1", "Secret",
          "kubernetes.io/dockerconfigjson", cfg0.secretName, "team-a", [7]⟩]) ∧
    (updateNamespaceCredentials cfg0 "team-a" [7]
        ⟨200, "OK", [⟨some ⟨"ecr-creds"⟩⟩]⟩ (200, "OK")).1.length = 1) :=
  ⟨by decide,
    C4_exactly_one_write cfg0 "team-a" [7] ⟨200, "OK", [⟨some ⟨"ecr-creds"⟩⟩]⟩
      (200, "OK") (by decide)⟩

/-- C5: in a sweep whose namespace listing and token fetch succeed, every
listed namespace's reconciliation outcome appears in the sweep, the
sweep-level error is `none` regardless of any per-namespace failure
(failures are caught inside `updateNamespaceCredentials` and reported at
that namespace's scope only), and a namespace's outcome depends only on
that namespace's own listing and write responses — so another
namespace's failure cannot prevent it from receiving its update. -/
theorem C5_failure_isolation (cfg : Config) (l : List String) (tok : List Nat)
    (B : String) (now : Nat) (cache : Option CacheEntry)
    (o1 o1' : String → SecretListResponse) (o2 o2' : String → Nat × String)
    (hB : B ∈ l) (h1 : o1 B = o1' B) (h2 : o2 B = o2' B) :
    (B, updateNamespaceCredentials cfg B tok (o1 B) (o2 B)) ∈
      (updateCredentials cfg (.ok l) now cache (.ok tok) o1 o2).perNamespace ∧
    (updateCredentials cfg (.ok l) now cache (.ok tok) o1 o2).sweepError = none ∧
    updateNamespaceCredentials cfg B tok (o1 B) (o2 B) =
      updateNamespaceCredentials cfg B tok (o1' B) (o2' B) := by
  refine ⟨?_, ?_, by rw [h1, h2]⟩
  · cases cache <;>
      simp only [updateCredentials, getDockerCredentials, gdcFetch, List.mem_map] <;>
      exact ⟨B, hB, rfl⟩
  · cases cache <;> simp [updateCredentials, getDockerCredentials, gdcFetch]

/-- Witness for C5: namespace `team-a` fails (non-2xx listing and write),
namespace `team-b` still receives its update in the same sweep. -/
theorem C5_witness :
    ("team-b", updateNamespaceCredentials cfg0 "team-b" [7]
        ((fun ns => if ns = "team-a" then (⟨500, "Internal Server Error", []⟩ : SecretListResponse)
          else ⟨200, "OK", []⟩) "team-b")
        ((fun ns => if ns = "team-a" then ((500, "Internal Server Error") : Nat × String)
          else (200, "OK")) "team-b")) ∈
      (updateCredentials cfg0 (.ok ["team-a", "team-b"]) 0 none (.ok [7])
        (fun ns => if ns = "team-a" then ⟨500, "Internal Server Error", []⟩
          else ⟨200, "OK", []⟩)
        (fun ns => if ns = "team-a" then (500, "Internal Server Error")
          else (200, "OK"))).perNamespace ∧
    (updateCredentials cfg0 (.ok ["team-a", "team-b"]) 0 none (.ok [7])
        (fun ns => if ns = "team-a" then ⟨500, "Internal Server Error", []⟩
          else ⟨200, "OK", []⟩)
        (fun ns => if ns = "team-a" then (500, "Internal Server Error")
          else (200, "OK"))).sweepError = none ∧
    updateNamespaceCredentials cfg0 "team-b" [7]
        ((fun ns => if ns = "team-a" then (⟨500, "Internal Server Error", []⟩ : SecretListResponse)
          else ⟨200, "OK", []⟩) "team-b")
        ((fun ns => if ns = "team-a" then ((500, "Internal Server Error") : Nat × String)
          else (200, "OK")) "team-b") =
      updateNamespaceCredentials cfg0 "team-b" [7]
        ((fun _ => (⟨200, "OK", []⟩ : SecretListResponse)) "team-b")
        ((fun _ => ((200, "OK") : Nat × String)) "team-b") :=
  C5_failure_isolation cfg0 ["team-a", "team-b"] [7] "team-b" 0 none
    (fun ns => if ns = "team-a" then ⟨500, "Internal Server Error", []⟩ else ⟨200, "OK", []⟩)
    (fun _ => ⟨200, "OK", []⟩)
    (fun ns => if ns = "team-a" then (500, "Internal Server Error") else (200, "OK"))
    (fun _ => (200, "OK"))
    (by simp) (by simp) (by simp)

/-- C7: if the provider call made by `getDockerCredentials` fails, the
`cachedToken` variable is left exactly as it was, and a future
`getToken(true)` call within the freshness window still resolves from the
unchanged cache without a provider call. -/
theorem C7_cache_on_failure (useCache : Bool) (now : Nat) (st : Option CacheEntry)
    (e : JsError) :
    (getDockerCredentials useCache now st (.error e)).cache = st ∧
    (∀ c n2 f2, st = some c →
      (n2 - c.date) / 60000 < freshnessWindowMinutes →
      getDockerCredentials true n2 (getDockerCredentials useCache now st (.error e)).cache f2 =
        ⟨.ok c.token, some c, false⟩) := by
  have hcache : (getDockerCredentials useCache now st (.error e)).cache = st := by
    cases useCache <;> cases st <;>
      simp [getDockerCredentials, gdcFetch] <;> split <;> rfl
  refine ⟨hcache, ?_⟩
  intro c n2 f2 hst hfresh
  rw [hcache, hst, gdc_cacheHit n2 c f2 hfresh]

/-- Witness for C7: a failing fetch over a populated cache leaves the
entry in place and a fresh call still serves it. -/
theorem C7_witness :
    (getDockerCredentials true 0 (some ⟨[5], 0⟩)
      (.error (JsError.providerError "boom"))).cache = some ⟨[5], 0⟩ ∧
    getDockerCredentials true 60000 (getDockerCredentials true 0 (some ⟨[5], 0⟩)
        (.error (JsError.providerError "boom"))).cache (Except.ok [6]) =
      ⟨.ok (CacheEntry.mk [5] 0).token, some ⟨[5], 0⟩, false⟩ :=
  ⟨(C7_cache_on_failure true 0 (some ⟨[5], 0⟩) (JsError.providerError "boom")).1,
    (C7_cache_on_failure true 0 (some ⟨[5], 0⟩) (JsError.providerError "boom")).2
      ⟨[5], 0⟩ 60000 (Except.ok [6]) rfl (by norm_num [freshnessWindowMinutes])⟩

/-- C9 (code bug): on a non-2xx secret listing the message supplier in
`secretExists` dereferences the unbound identifier `secretsResponse`, so
the error thrown — and reported for the namespace — is a
`ReferenceError`, not an `ApiError` carrying the response's status code
and status message as the claim (and the evident intent of the message
template) requires. -/
theorem C9_listing_error_shape :
    updateNamespaceCredentials cfg0 "team-a" [7]
        ⟨500, "Internal Server Error", []⟩ (200, "OK") =
      ([], some (JsError.referenceError "secretsResponse")) ∧
    (JsError.referenceError "secretsResponse").isHttpError = false :=
  ⟨rfl, rfl⟩

/-- C10: in every sweep whose namespace listing succeeds — including with
an empty namespace list — the provider is contacted (`useCache` is left
undefined, hence falsy), and a successful fetch overwrites the cache
shared with the watch path with the newly fetched document. -/
theorem C10_sweep_always_fetches (cfg : Config) (l : List String)
    (nsResp : Except JsError (List String)) (now : Nat) (cache : Option CacheEntry)
    (fetch : Except JsError (List Nat)) (listO : String → SecretListResponse)
    (writeO : String → Nat × String) (hns : nsResp = .ok l) :
    (updateCredentials cfg nsResp now cache fetch listO writeO).providerCalled = true ∧
    (∀ t, fetch = .ok t →
      (updateCredentials cfg nsResp now cache fetch listO writeO).cache = some ⟨t, now⟩) := by
  subst hns
  constructor
  · cases cache <;> cases fetch <;>
      simp [updateCredentials, getDockerCredentials, gdcFetch]
  · intro t ht
    subst ht
    cases cache <;> simp [updateCredentials, getDockerCredentials, gdcFetch]

/-- Witness for C10: an empty sweep still contacts the provider and
refreshes the cache. -/
theorem C10_witness :
    (updateCredentials cfg0 (.ok []) 42 none (.ok [7])
      (fun _ => ⟨200, "OK", []⟩) (fun _ => (200, "OK"))).providerCalled = true ∧
    (∀ t, (Except.ok [7] : Except JsError (List Nat)) = .ok t →
      (updateCredentials cfg0 (.ok []) 42 none (.ok [7])
        (fun _ => ⟨200, "OK", []⟩) (fun _ => (200, "OK"))).cache = some ⟨t, 42⟩) :=
  C10_sweep_always_fetches cfg0 [] (.ok []) 42 none (.ok [7])
    (fun _ => ⟨200, "OK", []⟩) (fun _ => (200, "OK")) rfl

/-- C6 (counterexample): when the provider responds with zero
authorization entries, `fetchDockerCredentials` does not fail — it
resolves successfully with the encoded empty document
`base64("\x7b\x22auths\x22:\x7b\x7d\x7d") = "eyJhdXRocyI6e319"`,
and reconciliation proceeds with that document. -/
theorem C6_counterexample :
    fetchDockerCredentials cfg0.registry (Except.ok ⟨some []⟩) =
      Except.ok (strBytes "eyJhdXRocyI6e319") := by
  rfl

/-- C6 (amended): `getToken` fails — propagating the provider's own
rejection — exactly when the provider call itself fails; when the
provider returns no authorization data (absent array, empty array, entry
without a token field, or an empty-string token), the call succeeds and
produces the encoded empty credentials document. -/
theorem C6_amended (registry : List Nat) (e : JsError) (tl : List EcrAuthData) :
    fetchDockerCredentials registry (.error e) = .error e ∧
    fetchDockerCredentials registry (.ok ⟨none⟩) =
      .ok (base64Encode (renderJson (dockerConfigJson registry none))) ∧
    fetchDockerCredentials registry (.ok ⟨some []⟩) =
      .ok (base64Encode (renderJson (dockerConfigJson registry none))) ∧
    fetchDockerCredentials registry (.ok ⟨some (⟨none⟩ :: tl)⟩) =
      .ok (base64Encode (renderJson (dockerConfigJson registry none))) ∧
    fetchDockerCredentials registry (.ok ⟨some (⟨some []⟩ :: tl)⟩) =
      .ok (base64Encode (renderJson (dockerConfigJson registry none))) :=
  ⟨rfl, rfl, rfl, rfl, rfl⟩

/-- All bytes of the rendered one-entry docker-config document are below
256 when the registry and token bytes are. -/
theorem renderJson_docFull_lt (registry token : List Nat)
    (hreg : ∀ b ∈ registry, b < 256) (htok : ∀ b ∈ token, b < 256) :
    ∀ x ∈ renderJson (Json.obj [(strBytes "auths", Json.obj [(registry, Json.obj
      [(strBytes "username", Json.str (strBytes "AWS")),
       (strBytes "password", Json.str token)])])]), x < 256 := by
  have hA : ∀ a ∈ strBytes "auths", a < 256 := by decide
  have hU : ∀ a ∈ strBytes "username", a < 256 := by decide
  have hW : ∀ a ∈ strBytes "AWS", a < 256 := by decide
  have hP : ∀ a ∈ strBytes "password", a < 256 := by decide
  simp only [renderJson, renderMembers, renderStr]
  simp only [List.cons_append, List.nil_append, List.append_assoc]
  simp only [List.forall_mem_append, List.forall_mem_cons, List.forall_mem_nil,
    and_true, true_and]
  repeat' apply And.intro
  all_goals first
    | omega
    | exact fun x hx => absurd hx (List.not_mem_nil x)
    | exact escapeStr_lt _ hA
    | exact escapeStr_lt _ hU
    | exact escapeStr_lt _ hW
    | exact escapeStr_lt _ hP
    | exact escapeStr_lt _ hreg
    | exact escapeStr_lt _ htok

theorem jsonParse_render_docFull (registry token : List Nat) :
    jsonParse (renderJson (Json.obj [(strBytes "auths", Json.obj [(registry, Json.obj
      [(strBytes "username", Json.str (strBytes "AWS")),
       (strBytes "password", Json.str token)])])])) =
    some (Json.obj [(strBytes "auths", Json.obj [(registry, Json.obj
      [(strBytes "username", Json.str (strBytes "AWS")),
       (strBytes "password", Json.str token)])])]) := by
  have hleaf : ∀ n r, parseJson (n + 4) (renderJson (Json.obj
      [(strBytes "username", Json.str (strBytes "AWS")),
       (strBytes "password", Json.str token)]) ++ r) =
      some (Json.obj [(strBytes "username", Json.str (strBytes "AWS")),
        (strBytes "password", Json.str token)], r) := by
    intro n r
    rw [show n + 4 = (n + 1) + 3 by omega]
    exact parseJson_render_obj2 (n + 1) _ _ _ _ r
      (fun r' => parseJson_render_str (n + 1 + 1) _ r')
      (fun r' => parseJson_render_str n _ r')
  have hinner : ∀ n r, parseJson (n + 6) (renderJson (Json.obj [(registry, Json.obj
      [(strBytes "username", Json.str (strBytes "AWS")),
       (strBytes "password", Json.str token)])]) ++ r) =
      some (Json.obj [(registry, Json.obj
        [(strBytes "username", Json.str (strBytes "AWS")),
         (strBytes "password", Json.str token)])], r) := by
    intro n r
    rw [show n + 6 = (n + 4) + 2 by omega]
    exact parseJson_render_obj1 (n + 4) _ _ r (fun r' => hleaf n r')
  have hdoc : ∀ n r, parseJson (n + 8) (renderJson (Json.obj [(strBytes "auths",
      Json.obj [(registry, Json.obj
        [(strBytes "username", Json.str (strBytes "AWS")),
         (strBytes "password", Json.str token)])])]) ++ r) =
      some (Json.obj [(strBytes "auths", Json.obj [(registry, Json.obj
        [(strBytes "username", Json.str (strBytes "AWS")),
         (strBytes "password", Json.str token)])])], r) := by
    intro n r
    rw [show n + 8 = (n + 6) + 2 by omega]
    exact parseJson_render_obj1 (n + 6) _ _ r (fun r' => hinner n r')
  have hlen : 3 ≤ (renderJson (Json.obj [(strBytes "auths", Json.obj [(registry, Json.obj
      [(strBytes "username", Json.str (strBytes "AWS")),
       (strBytes "password", Json.str token)])])])).length := by
    simp only [renderJson, renderMembers, renderStr, List.length_append, List.length_cons]
    omega
  unfold jsonParse
  rw [show (renderJson (Json.obj [(strBytes "auths", Json.obj [(registry, Json.obj
      [(strBytes "username", Json.str (strBytes "AWS")),
       (strBytes "password", Json.str token)])])])).length + 5 =
    ((renderJson (Json.obj [(strBytes "auths", Json.obj [(registry, Json.obj
      [(strBytes "username", Json.str (strBytes "AWS")),
       (strBytes "password", Json.str token)])])])).length - 3) + 8 by omega]
  have h := hdoc ((renderJson (Json.obj [(strBytes "auths", Json.obj [(registry, Json.obj
      [(strBytes "username", Json.str (strBytes "AWS")),
       (strBytes "password", Json.str token)])])])).length - 3) []
  rw [List.append_nil] at h
  rw [h]

theorem jsonParse_render_docEmpty :
    jsonParse (renderJson (Json.obj [(strBytes "auths", Json.obj [])])) =
      some (Json.obj [(strBytes "auths", Json.obj [])]) := by
  have hdoc : ∀ n r, parseJson (n + 3)
      (renderJson (Json.obj [(strBytes "auths", Json.obj [])]) ++ r) =
      some (Json.obj [(strBytes "auths", Json.obj [])], r) := by
    intro n r
    rw [show n + 3 = (n + 1) + 2 by omega]
    exact parseJson_render_obj1 (n + 1) _ _ r (fun r' => parseJson_render_objNil n r')
  unfold jsonParse
  rw [show (renderJson (Json.obj [(strBytes "auths", Json.obj [])])).length + 5 =
    ((renderJson (Json.obj [(strBytes "auths", Json.obj [])])).length + 2) + 3 by omega]
  have h := hdoc ((renderJson (Json.obj [(strBytes "auths", Json.obj [])])).length + 2) []
  rw [List.append_nil] at h
  rw [h]

/-- C8: for every token value, base64-decoding and JSON-parsing the
credentials document built by the token fetcher recovers the auths map
whose only key — for a non-empty token — is the configured registry
hostname, mapped to the record with username `AWS` and the token as
password; and when the provider returns zero authorization entries, the
recovered map is exactly the empty auths map. -/
theorem C8_round_trip (registry token : List Nat)
    (hreg : ∀ b ∈ registry, b < 256) (htok : ∀ b ∈ token, b < 256)
    (hne : token ≠ []) :
    (∃ d, fetchDockerCredentials registry (.ok ⟨some [⟨some token⟩]⟩) = .ok d ∧
      decodeCredentials d = some (Json.obj [(strBytes "auths", Json.obj [(registry,
        Json.obj [(strBytes "username", Json.str (strBytes "AWS")),
                  (strBytes "password", Json.str token)])])])) ∧
    (∃ d, fetchDockerCredentials registry (.ok ⟨some []⟩) = .ok d ∧
      decodeCredentials d = some (Json.obj [(strBytes "auths", Json.obj [])])) := by
  obtain ⟨t0, ts, rfl⟩ : ∃ t0 ts, token = t0 :: ts := by
    cases token with
    | nil => exact absurd rfl hne
    | cons a b => exact ⟨a, b, rfl⟩
  constructor
  · refine ⟨base64Encode (renderJson (dockerConfigJson registry (some (t0 :: ts)))), rfl, ?_⟩
    have hdoc : dockerConfigJson registry (some (t0 :: ts)) =
        Json.obj [(strBytes "auths", Json.obj [(registry, Json.obj
          [(strBytes "username", Json.str (strBytes "AWS")),
           (strBytes "password", Json.str (t0 :: ts))])])] := rfl
    rw [hdoc]
    unfold decodeCredentials
    rw [base64_decode_encode _ (renderJson_docFull_lt registry (t0 :: ts) hreg htok)]
    simp only [Option.some_bind]
    exact jsonParse_render_docFull registry (t0 :: ts)
  · refine ⟨base64Encode (renderJson (dockerConfigJson registry none)), rfl, ?_⟩
    have hdoc : dockerConfigJson registry none =
        Json.obj [(strBytes "auths", Json.obj [])] := rfl
    rw [hdoc]
    unfold decodeCredentials
    rw [base64_decode_encode _ (by decide)]
    simp only [Option.some_bind]
    exact jsonParse_render_docEmpty

/-- Witness for C8 at a concrete registry and token. -/
theorem C8_witness :
    (∀ b ∈ strBytes "r", b < 256) ∧ (∀ b ∈ strBytes "t", b < 256) ∧
    ((∃ d, fetchDockerCredentials (strBytes "r")
        (.ok ⟨some [⟨some (strBytes "t")⟩]⟩) = .ok d ∧
      decodeCredentials d = some (Json.obj [(strBytes "auths", Json.obj [(strBytes "r",
        Json.obj [(strBytes "username", Json.str (strBytes "AWS")),
                  (strBytes "password", Json.str (strBytes "t"))])])])) ∧
    (∃ d, fetchDockerCredentials (strBytes "r") (.ok ⟨some []⟩) = .ok d ∧
      decodeCredentials d = some (Json.obj [(strBytes "auths", Json.obj [])]))) :=
  ⟨by decide, by decide,
    C8_round_trip (strBytes "r") (strBytes "t") (by decide) (by decide) (by decide)⟩
